import Mathlib

/-
Shallow embedding of the Chip8 emulator core.

The machine state mirrors the `Chip8` aggregate of the repository: a flat
byte memory (`ram`), a register file (`regs`), a 16-entry return stack
(`stack`), the 64 by 32 monochrome screen (`screen`) and the pressed state
of the 16 logical keys (`key`, indexed by the hexadecimal key value that the
host key map of part_001 assigns to each host key).

Machine integers are modelled as `Nat` with explicit reduction modulo
2^8 / 2^16 exactly where the C++ performs a narrowing store: every write of
an 8-bit register or memory byte reduces mod 256, every write of a 16-bit
program counter, index register or stack slot reduces mod 65536.
-/

def RAM_SIZE : Nat := 4096

/-- Modelled from the spec (section 3): `ROM_START` is declared in the missing
header chip8.hpp; the spec places the loaded program at address 0x200. -/
def ROM_START : Nat := 0x200

/-- The register struct of the missing header chip8.hpp: fields v0 .. vF are
collected into the function `v`, the remaining fields keep their names. -/
structure Registers where
  v : Nat → Nat
  I : Nat
  pc : Nat
  sp : Nat
  delay_timer : Nat
  sound_timer : Nat

structure Chip8 where
  ram : Nat → Nat
  regs : Registers
  stack : Nat → Nat
  screen : Nat → Nat → Bool
  key : Nat → Bool

/-- part_001 lines 132-189: the 16-way switch returns the selected register,
and -1 (as u8: 255) for an index outside 0..15. -/
def get_value_in_Vreg (regNum : Nat) (r : Registers) : Nat :=
  if 15 < regNum then 255 else r.v regNum

/-- part_001 lines 76-130: the 16-way switch stores the 8-bit value into the
selected register and ignores an index outside 0..15. -/
def put_value_in_Vreg (regNum : Nat) (value : Nat) (r : Registers) : Registers :=
  if 15 < regNum then r
  else { r with v := Function.update r.v regNum (value % 256) }

/-- A store into the byte array `ram` (the value narrows to u8). -/
def write_ram (chip : Chip8) (addr value : Nat) : Chip8 :=
  { chip with ram := Function.update chip.ram addr (value % 256) }

abbrev Screen := Nat → Nat → Bool

/-- Modelled from the spec (section 4.2, opcode 00E0): `clear_screen` lives in
the screen unit, which is absent from src; it clears the Display Buffer to
all-zero. -/
def clear_screen (_ : Screen) : Screen := fun _ _ => false

/-- Modelled from the spec (section 4.3): `draw_pixel_row` lives in the screen
unit, which is absent from src. The 8 bits of the sprite byte, most
significant first, are XORed into the row at pixels (x+0 .. x+7, y); the
returned flag reports whether a previously set pixel was cleared; pixels past
x = 63 fall off the buffer and are ignored. -/
def draw_pixel_row (x y : Nat) (screen : Screen) (byte : Nat) : Screen × Bool :=
  (List.range 8).foldl
    (fun acc i =>
      if x + i < 64 then
        let bit := Nat.testBit byte (7 - i)
        let old := acc.1 (x + i) y
        (fun a b => if a = x + i ∧ b = y then xor old bit else acc.1 a b,
         acc.2 || (old && bit))
      else acc)
    (screen, false)

/-- The while loop of the Dxyn case (part_000 lines 357-371): draw the current
sprite byte at row `y`, set VF to 1 on a collision, advance to the next row and
byte, and stop when the byte count runs out or the bottom of the screen is
reached. -/
def dxynLoop (x y memory_location n : Nat) (chip : Chip8) : Chip8 :=
  match n with
  | 0 => chip
  | m + 1 =>
    let cur_byte := chip.ram memory_location
    let dr := draw_pixel_row x y chip.screen cur_byte
    let chip2 : Chip8 :=
      { chip with screen := dr.1,
                  regs := if dr.2 then put_value_in_Vreg 15 1 chip.regs else chip.regs }
    if 32 ≤ y + 1 then chip2
    else dxynLoop x (y + 1) (memory_location + 1) m chip2

/-- The for loop of the Fx55 case (part_000 lines 485-487): copy V0 .. Vx into
memory starting at the address in I. -/
def fx55_go (x_reg_num i : Nat) (chip : Chip8) : Chip8 :=
  if i ≤ x_reg_num then
    fx55_go x_reg_num (i + 1)
      (write_ram chip (chip.regs.I + i) (get_value_in_Vreg i chip.regs))
  else chip
termination_by x_reg_num + 1 - i
decreasing_by omega

/-- The for loop of the Fx65 case (part_000 lines 493-495): read memory
starting at the address in I into V0 .. Vx. -/
def fx65_go (x_reg_num i : Nat) (chip : Chip8) : Chip8 :=
  if i ≤ x_reg_num then
    fx65_go x_reg_num (i + 1)
      { chip with regs := put_value_in_Vreg i (chip.ram (chip.regs.I + i)) chip.regs }
  else chip
termination_by x_reg_num + 1 - i
decreasing_by omega

/-- Composition of `get_keycode_from_u8` with the global `key_state` lookup
(part_000 case 0xE, part_001): the hex digit is translated to its host key and
that key's pressed flag is read; a value outside 0..15 maps to the fresh
"Unknown" entry of the map, which is false. -/
def key_lookup (chip : Chip8) (value : Nat) : Bool :=
  if value < 16 then chip.key value else false

/-- The 8xy_ family of part_000 (lines 239-311), acting on the register file.
Vy and Vx are captured before any write; in the arithmetic and shift cases the
flag register VF is written first and the destination register second. -/
def exec8 (instruction : Nat) (r : Registers) : Registers :=
  let finalNib := instruction &&& 0xF
  let x_reg_num := (instruction >>> 8) &&& 0xF
  let y_reg_num := (instruction >>> 4) &&& 0xF
  let Vy := get_value_in_Vreg y_reg_num r
  let Vx := get_value_in_Vreg x_reg_num r
  if finalNib = 0x0 then put_value_in_Vreg x_reg_num Vy r
  else if finalNib = 0x1 then put_value_in_Vreg x_reg_num (Vx ||| Vy) r
  else if finalNib = 0x2 then put_value_in_Vreg x_reg_num (Vx &&& Vy) r
  else if finalNib = 0x3 then put_value_in_Vreg x_reg_num (Vx ^^^ Vy) r
  else if finalNib = 0x4 then
    let sum := (Vx + Vy) % 65536
    let result := sum % 256
    let carry := if 255 < sum then 1 else 0
    put_value_in_Vreg x_reg_num result (put_value_in_Vreg 0xF carry r)
  else if finalNib = 0x5 then
    let carry := if Vy < Vx then 1 else 0
    put_value_in_Vreg x_reg_num (Vx + 256 - Vy) (put_value_in_Vreg 0xF carry r)
  else if finalNib = 0x6 then
    let lsb := Vx &&& 0x1
    put_value_in_Vreg x_reg_num (Vx >>> 1) (put_value_in_Vreg 0xF lsb r)
  else if finalNib = 0x7 then
    let carry := if Vx < Vy then 1 else 0
    put_value_in_Vreg x_reg_num (Vy + 256 - Vx) (put_value_in_Vreg 0xF carry r)
  else if finalNib = 0xE then
    let msb := Vx >>> 7
    put_value_in_Vreg x_reg_num (Vx * 2) (put_value_in_Vreg 0xF msb r)
  else r

/-- The 8xy_ family of the older variant src/chip8.cpp (lines 303-374), acting
on the register file. Vy and Vx are captured before any write; in the 8xy4,
8xy5, 8xy7 and 8xyE cases the destination register is written first and the
flag register VF second, while 8xy6 writes VF first as in the other variant. -/
def exec8_chip8cpp (instruction : Nat) (r : Registers) : Registers :=
  let finalNib := instruction &&& 0xF
  let x_reg_num := (instruction >>> 8) &&& 0xF
  let y_reg_num := (instruction >>> 4) &&& 0xF
  let Vy := get_value_in_Vreg y_reg_num r
  let Vx := get_value_in_Vreg x_reg_num r
  if finalNib = 0x0 then put_value_in_Vreg x_reg_num Vy r
  else if finalNib = 0x1 then put_value_in_Vreg x_reg_num (Vx ||| Vy) r
  else if finalNib = 0x2 then put_value_in_Vreg x_reg_num (Vx &&& Vy) r
  else if finalNib = 0x3 then put_value_in_Vreg x_reg_num (Vx ^^^ Vy) r
  else if finalNib = 0x4 then
    let sum := (Vx + Vy) % 65536
    let result := sum % 256
    let carry := if 255 < sum then 1 else 0
    put_value_in_Vreg 0xF carry (put_value_in_Vreg x_reg_num result r)
  else if finalNib = 0x5 then
    let carry := if Vy < Vx then 1 else 0
    put_value_in_Vreg 0xF carry (put_value_in_Vreg x_reg_num (Vx + 256 - Vy) r)
  else if finalNib = 0x6 then
    let lsb := Vx &&& 0x1
    put_value_in_Vreg x_reg_num (Vx >>> 1) (put_value_in_Vreg 0xF lsb r)
  else if finalNib = 0x7 then
    let carry := if Vx < Vy then 1 else 0
    put_value_in_Vreg 0xF carry (put_value_in_Vreg x_reg_num (Vy + 256 - Vx) r)
  else if finalNib = 0xE then
    let msb := Vx >>> 7
    put_value_in_Vreg 0xF msb (put_value_in_Vreg x_reg_num (Vx * 2) r)
  else r

/-- `perform_instruction` of src/unnamed/part_000 (lines 151-502). The random
byte of the Cxkk case is passed in as `random_byte` in place of the host
random generator. -/
def perform_instruction (instruction random_byte : Nat) (chip : Chip8) : Chip8 :=
  let opcode := instruction >>> 12
  if opcode = 0x0 then
    if instruction = 0x00E0 then { chip with screen := clear_screen chip.screen }
    else if instruction = 0x00EE then
      let sp2 := (chip.regs.sp + 255) % 256
      { chip with regs := { chip.regs with sp := sp2, pc := chip.stack sp2 % 65536 } }
    else chip
  else if opcode = 0x1 then
    { chip with regs := { chip.regs with pc := instruction &&& 0xFFF } }
  else if opcode = 0x2 then
    if 15 ≤ chip.regs.sp then chip
    else
      { chip with
          stack := Function.update chip.stack chip.regs.sp (chip.regs.pc % 65536),
          regs := { chip.regs with sp := (chip.regs.sp + 1) % 256, pc := instruction &&& 0xFFF } }
  else if opcode = 0x3 then
    let kk := instruction &&& 0xFF
    let reg_num := (instruction >>> 8) &&& 0xF
    if kk = get_value_in_Vreg reg_num chip.regs then
      { chip with regs := { chip.regs with pc := (chip.regs.pc + 2) % 65536 } }
    else chip
  else if opcode = 0x4 then
    let kk := instruction &&& 0xFF
    let reg_num := (instruction >>> 8) &&& 0xF
    if kk = get_value_in_Vreg reg_num chip.regs then chip
    else { chip with regs := { chip.regs with pc := (chip.regs.pc + 2) % 65536 } }
  else if opcode = 0x5 then
    let x_reg_num := (instruction >>> 8) &&& 0xF
    let y_reg_num := (instruction >>> 4) &&& 0xF
    if get_value_in_Vreg x_reg_num chip.regs = get_value_in_Vreg y_reg_num chip.regs then
      { chip with regs := { chip.regs with pc := (chip.regs.pc + 2) % 65536 } }
    else chip
  else if opcode = 0x6 then
    let kk := instruction &&& 0xFF
    let x := (instruction >>> 8) &&& 0xF
    { chip with regs := put_value_in_Vreg x kk chip.regs }
  else if opcode = 0x7 then
    let kk := instruction &&& 0xFF
    let x_reg_num := (instruction >>> 8) &&& 0xF
    let new_reg_val := get_value_in_Vreg x_reg_num chip.regs + kk
    { chip with regs := put_value_in_Vreg x_reg_num new_reg_val chip.regs }
  else if opcode = 0x8 then
    { chip with regs := exec8 instruction chip.regs }
  else if opcode = 0x9 then
    let x_reg_num := (instruction >>> 8) &&& 0xF
    let y_reg_num := (instruction >>> 4) &&& 0xF
    if get_value_in_Vreg x_reg_num chip.regs = get_value_in_Vreg y_reg_num chip.regs then
      chip
    else { chip with regs := { chip.regs with pc := (chip.regs.pc + 2) % 65536 } }
  else if opcode = 0xA then
    { chip with regs := { chip.regs with I := instruction &&& 0xFFF } }
  else if opcode = 0xB then
    let nnn := instruction &&& 0xFFF
    { chip with regs := { chip.regs with
        pc := (nnn + get_value_in_Vreg 0 chip.regs) % 65536 } }
  else if opcode = 0xC then
    let kk := instruction &&& 0xFF
    let x_reg_num := (instruction >>> 8) &&& 0xF
    { chip with regs := put_value_in_Vreg x_reg_num (kk &&& random_byte % 256) chip.regs }
  else if opcode = 0xD then
    let x_reg_num := (instruction >>> 8) &&& 0xF
    let y_reg_num := (instruction >>> 4) &&& 0xF
    let n := instruction &&& 0xF
    let x := get_value_in_Vreg x_reg_num chip.regs &&& 63
    let y := get_value_in_Vreg y_reg_num chip.regs &&& 31
    let memory_location := chip.regs.I
    dxynLoop x y memory_location n
      { chip with regs := put_value_in_Vreg 15 0x00 chip.regs }
  else if opcode = 0xE then
    let last8 := instruction &&& 0xFF
    let x_reg_num := (instruction >>> 8) &&& 0xF
    let Vx := get_value_in_Vreg x_reg_num chip.regs
    if last8 = 0x9E then
      if key_lookup chip Vx then
        { chip with regs := { chip.regs with pc := (chip.regs.pc + 2) % 65536 } }
      else chip
    else if last8 = 0xA1 then
      if key_lookup chip Vx then chip
      else { chip with regs := { chip.regs with pc := (chip.regs.pc + 2) % 65536 } }
    else chip
  else if opcode = 0xF then
    let last8 := instruction &&& 0xFF
    let x_reg_num := (instruction >>> 8) &&& 0xF
    let Vx := get_value_in_Vreg x_reg_num chip.regs
    if last8 = 0x07 then
      { chip with regs := put_value_in_Vreg x_reg_num chip.regs.delay_timer chip.regs }
    else if last8 = 0x0A then
      if chip.key 1 then { chip with regs := put_value_in_Vreg x_reg_num 1 chip.regs }
      else if chip.key 2 then { chip with regs := put_value_in_Vreg x_reg_num 2 chip.regs }
      else if chip.key 3 then { chip with regs := put_value_in_Vreg x_reg_num 3 chip.regs }
      else if chip.key 4 then { chip with regs := put_value_in_Vreg x_reg_num 4 chip.regs }
      else if chip.key 5 then { chip with regs := put_value_in_Vreg x_reg_num 5 chip.regs }
      else if chip.key 6 then { chip with regs := put_value_in_Vreg x_reg_num 6 chip.regs }
      else if chip.key 7 then { chip with regs := put_value_in_Vreg x_reg_num 7 chip.regs }
      else if chip.key 8 then { chip with regs := put_value_in_Vreg x_reg_num 8 chip.regs }
      else if chip.key 9 then { chip with regs := put_value_in_Vreg x_reg_num 9 chip.regs }
      else if chip.key 10 then { chip with regs := put_value_in_Vreg x_reg_num 10 chip.regs }
      else if chip.key 0 then { chip with regs := put_value_in_Vreg x_reg_num 0 chip.regs }
      else if chip.key 11 then { chip with regs := put_value_in_Vreg x_reg_num 11 chip.regs }
      else if chip.key 12 then { chip with regs := put_value_in_Vreg x_reg_num 12 chip.regs }
      else if chip.key 13 then { chip with regs := put_value_in_Vreg x_reg_num 13 chip.regs }
      else if chip.key 14 then { chip with regs := put_value_in_Vreg x_reg_num 14 chip.regs }
      else if chip.key 15 then { chip with regs := put_value_in_Vreg x_reg_num 15 chip.regs }
      else { chip with regs := { chip.regs with pc := (chip.regs.pc + 65534) % 65536 } }
    else if last8 = 0x15 then
      { chip with regs := { chip.regs with delay_timer := Vx % 256 } }
    else if last8 = 0x18 then
      { chip with regs := { chip.regs with sound_timer := Vx % 256 } }
    else if last8 = 0x1E then
      { chip with regs := { chip.regs with I := (chip.regs.I + Vx) % 65536 } }
    else if last8 = 0x29 then
      { chip with regs := { chip.regs with I := (0x050 + Vx * 5) % 65536 } }
    else if last8 = 0x33 then
      let c1 := write_ram chip (chip.regs.I + 2) (Vx % 10)
      let c2 := write_ram c1 (c1.regs.I + 1) (Vx / 10 % 10)
      write_ram c2 (c2.regs.I) (Vx / 10 / 10 % 10)
    else if last8 = 0x55 then fx55_go x_reg_num 0 chip
    else if last8 = 0x65 then fx65_go x_reg_num 0 chip
    else chip
  else chip

/-- The stderr report of the 2nnn case (part_000 lines 182-183): "Stack
overflow" is printed exactly when a call instruction finds the stack pointer
at capacity. -/
def reports_stack_overflow (instruction : Nat) (chip : Chip8) : Bool :=
  if instruction >>> 12 = 0x2 ∧ 15 ≤ chip.regs.sp then true else false

/-- `fetch_instruction` of part_000 (lines 128-133): read the big-endian
16-bit word at PC and advance PC by 2. -/
def fetch_instruction (chip : Chip8) : Nat × Chip8 :=
  let pc := chip.regs.pc
  let instruction := ((chip.ram pc % 256) * 256 + chip.ram (pc + 1) % 256) % 65536
  (instruction, { chip with regs := { chip.regs with pc := (pc + 2) % 65536 } })

/-- One instruction tick of the run loop (part_000 lines 92-93): fetch, then
execute. -/
def step (random_byte : Nat) (chip : Chip8) : Chip8 :=
  let fr := fetch_instruction chip
  perform_instruction fr.1 random_byte fr.2

/-- The copy loop of `load_rom` (part_000 lines 37-39): the blob is written
byte by byte starting at ROM_START, with no bound on its length. -/
def copy_rom : List Nat → Nat → Chip8 → Chip8
  | [], _, chip => chip
  | b :: rest, i, chip => copy_rom rest (i + 1) (write_ram chip (ROM_START + i) b)

/-- `load_rom` of part_000 (lines 9-40), after the file has been read into a
byte blob: the blob is copied verbatim into ram at ROM_START; the function
performs no size check. -/
def load_rom (rom : List Nat) (chip : Chip8) : Chip8 := copy_rom rom 0 chip

/-- Reference row iteration for the Dxyn claim: row r is drawn at screen row
y + r from the sprite byte at address I + r, and the collision flags of all
rows are OR-ed. -/
def drawRowsRef (x y I : Nat) (ram : Nat → Nat) : Nat → Screen → Screen × Bool
  | 0, s => (s, false)
  | r + 1, s =>
    let p := draw_pixel_row x y s (ram I)
    let q := drawRowsRef x (y + 1) (I + 1) ram r p.1
    (q.1, p.2 || q.2)

/-- The key scan order of the Fx0A case of part_000 (lines 415-450), each host
key replaced by the hex value the host key map of part_001 assigns to it. -/
def keyPriority : List Nat := [1, 2, 3, 4, 5, 6, 7, 8, 9, 10, 0, 11, 12, 13, 14, 15]

/-- Zero the registers V0 .. Vx, leaving the rest of the machine unchanged. -/
def zeroRegs (x : Nat) (chip : Chip8) : Chip8 :=
  { chip with regs := { chip.regs with
      v := fun i => if i ≤ x then 0 else chip.regs.v i } }

def zeroedRegisters : Registers :=
  { v := fun _ => 0, I := 0, pc := 0, sp := 0, delay_timer := 0, sound_timer := 0 }

/-- A concrete power-on machine: everything zero. -/
def zeroChip : Chip8 :=
  { ram := fun _ => 0, regs := zeroedRegisters, stack := fun _ => 0,
    screen := fun _ _ => false, key := fun _ => false }

/-- A machine whose register file holds V0 = 100 and VF = 200. -/
def c1chip : Chip8 :=
  { zeroChip with regs := { zeroedRegisters with
      v := fun i => if i = 0 then 100 else if i = 15 then 200 else 0 } }

/-- Program memory holding the call 0x2300 at 0x200 and the return 0x00EE at
0x300. -/
def c3ram : Nat → Nat := fun a =>
  if a = 0x200 then 0x23 else if a = 0x201 then 0x00 else
  if a = 0x300 then 0x00 else if a = 0x301 then 0xEE else 0

def c3chip : Chip8 :=
  { zeroChip with ram := c3ram, regs := { zeroedRegisters with pc := 0x200, sp := 3 } }

/-- Program memory holding the jump 0x1201, whose target is odd. -/
def c9ram : Nat → Nat := fun a =>
  if a = 0x200 then 0x12 else if a = 0x201 then 0x01 else 0

def c9chip : Chip8 :=
  { zeroChip with ram := c9ram, regs := { zeroedRegisters with pc := 0x200 } }

/-- A machine with the stack pointer at 5. -/
def sp5chip : Chip8 :=
  { zeroChip with regs := { zeroedRegisters with sp := 5 } }

/-- A machine with the stack pointer at capacity and PC at 77. -/
def sp15chip : Chip8 :=
  { zeroChip with regs := { zeroedRegisters with sp := 15, pc := 77 } }

/-- A machine on which only the logical key 7 is pressed. -/
def key7chip : Chip8 :=
  { zeroChip with key := fun k => k = 7, regs := { zeroedRegisters with pc := 100 } }

/-- A machine with distinct register values and the index register at 1000. -/
def c7chip : Chip8 :=
  { zeroChip with regs := { zeroedRegisters with I := 1000, v := fun i => (i * 11 + 3) % 256 } }

/-- A register file with V0 = 100 and VF = 200 (for the variant comparison). -/
def c8regs : Registers :=
  { zeroedRegisters with v := fun i => if i = 0 then 100 else if i = 15 then 200 else 0 }

/-- A register file with V2 = 9 and V3 = 4 (for the variant agreement part). -/
def c8regsB : Registers :=
  { zeroedRegisters with v := fun i => if i = 2 then 9 else if i = 3 then 4 else 0 }

/-! ## Basic lemmas about the register file and memory primitives -/

theorem put_value_pc (i v : Nat) (r : Registers) : (put_value_in_Vreg i v r).pc = r.pc := by
  unfold put_value_in_Vreg
  split <;> rfl

theorem put_value_sp (i v : Nat) (r : Registers) : (put_value_in_Vreg i v r).sp = r.sp := by
  unfold put_value_in_Vreg
  split <;> rfl

theorem put_value_I (i v : Nat) (r : Registers) : (put_value_in_Vreg i v r).I = r.I := by
  unfold put_value_in_Vreg
  split <;> rfl

theorem put_value_v_ne (i j v : Nat) (r : Registers) (h : i ≠ j) :
    (put_value_in_Vreg i v r).v j = r.v j := by
  unfold put_value_in_Vreg
  split
  · rfl
  · exact Function.update_noteq (fun hj => h hj.symm) _ _

theorem put_value_v_self (i v : Nat) (r : Registers) (h : i ≤ 15) :
    (put_value_in_Vreg i v r).v i = v % 256 := by
  unfold put_value_in_Vreg
  rw [if_neg (by omega)]
  exact Function.update_same _ _ _

theorem get_value_le (i : Nat) (r : Registers) (h : i ≤ 15) :
    get_value_in_Vreg i r = r.v i := by
  unfold get_value_in_Vreg
  rw [if_neg (by omega)]

theorem write_ram_regs (c : Chip8) (a v : Nat) : (write_ram c a v).regs = c.regs := rfl

theorem write_ram_stack (c : Chip8) (a v : Nat) : (write_ram c a v).stack = c.stack := rfl

/-! ## Dispatch lemmas: routing perform_instruction to each opcode family -/

theorem perform_ret (rnd : Nat) (chip : Chip8) :
    perform_instruction 0x00EE rnd chip =
      { chip with regs := { chip.regs with sp := (chip.regs.sp + 255) % 256, pc := chip.stack ((chip.regs.sp + 255) % 256) % 65536 } } := rfl

theorem perform_jump (w rnd : Nat) (chip : Chip8) (h : w >>> 12 = 0x1) :
    perform_instruction w rnd chip =
      { chip with regs := { chip.regs with pc := w &&& 0xFFF } } := by
  simp only [perform_instruction, h]
  norm_num

theorem perform_call (w rnd : Nat) (chip : Chip8) (h : w >>> 12 = 0x2) :
    perform_instruction w rnd chip =
      if 15 ≤ chip.regs.sp then chip
      else
        { chip with
            stack := Function.update chip.stack chip.regs.sp (chip.regs.pc % 65536),
            regs := { chip.regs with sp := (chip.regs.sp + 1) % 256, pc := w &&& 0xFFF } } := by
  simp only [perform_instruction, h]
  norm_num

theorem perform_8 (w rnd : Nat) (chip : Chip8) (h : w >>> 12 = 0x8) :
    perform_instruction w rnd chip = { chip with regs := exec8 w chip.regs } := by
  simp only [perform_instruction, h]
  norm_num

theorem perform_D (w rnd : Nat) (chip : Chip8) (h : w >>> 12 = 0xD) :
    perform_instruction w rnd chip =
      dxynLoop (get_value_in_Vreg ((w >>> 8) &&& 0xF) chip.regs &&& 63)
        (get_value_in_Vreg ((w >>> 4) &&& 0xF) chip.regs &&& 31)
        chip.regs.I (w &&& 0xF)
        { chip with regs := put_value_in_Vreg 15 0 chip.regs } := by
  simp only [perform_instruction, h]
  norm_num

theorem perform_F55 (w rnd : Nat) (chip : Chip8) (h12 : w >>> 12 = 0xF) (hff : w &&& 0xFF = 0x55) :
    perform_instruction w rnd chip = fx55_go ((w >>> 8) &&& 0xF) 0 chip := by
  simp only [perform_instruction, h12, hff]
  norm_num

theorem perform_F65 (w rnd : Nat) (chip : Chip8) (h12 : w >>> 12 = 0xF) (hff : w &&& 0xFF = 0x65) :
    perform_instruction w rnd chip = fx65_go ((w >>> 8) &&& 0xF) 0 chip := by
  simp only [perform_instruction, h12, hff]
  norm_num

theorem perform_clear (rnd : Nat) (chip : Chip8) :
    perform_instruction 0x00E0 rnd chip = { chip with screen := clear_screen chip.screen } := rfl

theorem perform_zero_default (w rnd : Nat) (chip : Chip8) (h : w >>> 12 = 0x0)
    (hE0 : w ≠ 0x00E0) (hEE : w ≠ 0x00EE) :
    perform_instruction w rnd chip = chip := by
  simp only [perform_instruction, h, hE0, hEE]
  norm_num

theorem perform_se3 (w rnd : Nat) (chip : Chip8) (h : w >>> 12 = 0x3) :
    perform_instruction w rnd chip =
      if w &&& 0xFF = get_value_in_Vreg ((w >>> 8) &&& 0xF) chip.regs then
        { chip with regs := { chip.regs with pc := (chip.regs.pc + 2) % 65536 } }
      else chip := by
  simp only [perform_instruction, h]
  norm_num

theorem perform_sne4 (w rnd : Nat) (chip : Chip8) (h : w >>> 12 = 0x4) :
    perform_instruction w rnd chip =
      if w &&& 0xFF = get_value_in_Vreg ((w >>> 8) &&& 0xF) chip.regs then chip
      else { chip with regs := { chip.regs with pc := (chip.regs.pc + 2) % 65536 } } := by
  simp only [perform_instruction, h]
  norm_num

theorem perform_se5 (w rnd : Nat) (chip : Chip8) (h : w >>> 12 = 0x5) :
    perform_instruction w rnd chip =
      if get_value_in_Vreg ((w >>> 8) &&& 0xF) chip.regs
          = get_value_in_Vreg ((w >>> 4) &&& 0xF) chip.regs then
        { chip with regs := { chip.regs with pc := (chip.regs.pc + 2) % 65536 } }
      else chip := by
  simp only [perform_instruction, h]
  norm_num

theorem perform_ld6 (w rnd : Nat) (chip : Chip8) (h : w >>> 12 = 0x6) :
    perform_instruction w rnd chip =
      { chip with regs := put_value_in_Vreg ((w >>> 8) &&& 0xF) (w &&& 0xFF) chip.regs } := by
  simp only [perform_instruction, h]
  norm_num

theorem perform_add7 (w rnd : Nat) (chip : Chip8) (h : w >>> 12 = 0x7) :
    perform_instruction w rnd chip =
      { chip with regs := put_value_in_Vreg ((w >>> 8) &&& 0xF) (get_value_in_Vreg ((w >>> 8) &&& 0xF) chip.regs + (w &&& 0xFF)) chip.regs } := by
  simp only [perform_instruction, h]
  norm_num

theorem perform_sne9 (w rnd : Nat) (chip : Chip8) (h : w >>> 12 = 0x9) :
    perform_instruction w rnd chip =
      if get_value_in_Vreg ((w >>> 8) &&& 0xF) chip.regs
          = get_value_in_Vreg ((w >>> 4) &&& 0xF) chip.regs then chip
      else { chip with regs := { chip.regs with pc := (chip.regs.pc + 2) % 65536 } } := by
  simp only [perform_instruction, h]
  norm_num

theorem perform_ldI (w rnd : Nat) (chip : Chip8) (h : w >>> 12 = 0xA) :
    perform_instruction w rnd chip =
      { chip with regs := { chip.regs with I := w &&& 0xFFF } } := by
  simp only [perform_instruction, h]
  norm_num

theorem perform_jpV0 (w rnd : Nat) (chip : Chip8) (h : w >>> 12 = 0xB) :
    perform_instruction w rnd chip =
      { chip with regs := { chip.regs with
          pc := ((w &&& 0xFFF) + get_value_in_Vreg 0 chip.regs) % 65536 } } := by
  simp only [perform_instruction, h]
  norm_num

theorem perform_rndC (w rnd : Nat) (chip : Chip8) (h : w >>> 12 = 0xC) :
    perform_instruction w rnd chip =
      { chip with regs := put_value_in_Vreg ((w >>> 8) &&& 0xF) ((w &&& 0xFF) &&& rnd % 256) chip.regs } := by
  simp only [perform_instruction, h]
  norm_num

theorem perform_skpE (w rnd : Nat) (chip : Chip8) (h : w >>> 12 = 0xE) :
    perform_instruction w rnd chip =
      (if w &&& 0xFF = 0x9E then
         if key_lookup chip (get_value_in_Vreg ((w >>> 8) &&& 0xF) chip.regs) then
           { chip with regs := { chip.regs with pc := (chip.regs.pc + 2) % 65536 } }
         else chip
       else if w &&& 0xFF = 0xA1 then
         if key_lookup chip (get_value_in_Vreg ((w >>> 8) &&& 0xF) chip.regs) then chip
         else { chip with regs := { chip.regs with pc := (chip.regs.pc + 2) % 65536 } }
       else chip) := by
  simp only [perform_instruction, h]
  norm_num

theorem perform_F07 (w rnd : Nat) (chip : Chip8) (h12 : w >>> 12 = 0xF)
    (hff : w &&& 0xFF = 0x07) :
    perform_instruction w rnd chip =
      { chip with regs := put_value_in_Vreg ((w >>> 8) &&& 0xF) chip.regs.delay_timer chip.regs } := by
  simp only [perform_instruction, h12, hff]
  norm_num

theorem perform_F15 (w rnd : Nat) (chip : Chip8) (h12 : w >>> 12 = 0xF)
    (hff : w &&& 0xFF = 0x15) :
    perform_instruction w rnd chip =
      { chip with regs := { chip.regs with
          delay_timer := get_value_in_Vreg ((w >>> 8) &&& 0xF) chip.regs % 256 } } := by
  simp only [perform_instruction, h12, hff]
  norm_num

theorem perform_F18 (w rnd : Nat) (chip : Chip8) (h12 : w >>> 12 = 0xF)
    (hff : w &&& 0xFF = 0x18) :
    perform_instruction w rnd chip =
      { chip with regs := { chip.regs with
          sound_timer := get_value_in_Vreg ((w >>> 8) &&& 0xF) chip.regs % 256 } } := by
  simp only [perform_instruction, h12, hff]
  norm_num

theorem perform_F1E (w rnd : Nat) (chip : Chip8) (h12 : w >>> 12 = 0xF)
    (hff : w &&& 0xFF = 0x1E) :
    perform_instruction w rnd chip =
      { chip with regs := { chip.regs with
          I := (chip.regs.I + get_value_in_Vreg ((w >>> 8) &&& 0xF) chip.regs) % 65536 } } := by
  simp only [perform_instruction, h12, hff]
  norm_num

theorem perform_F29 (w rnd : Nat) (chip : Chip8) (h12 : w >>> 12 = 0xF)
    (hff : w &&& 0xFF = 0x29) :
    perform_instruction w rnd chip =
      { chip with regs := { chip.regs with
          I := (0x050 + get_value_in_Vreg ((w >>> 8) &&& 0xF) chip.regs * 5) % 65536 } } := by
  simp only [perform_instruction, h12, hff]
  norm_num

theorem perform_F33 (w rnd : Nat) (chip : Chip8) (h12 : w >>> 12 = 0xF)
    (hff : w &&& 0xFF = 0x33) :
    perform_instruction w rnd chip =
      write_ram
        (write_ram
          (write_ram chip (chip.regs.I + 2)
            (get_value_in_Vreg ((w >>> 8) &&& 0xF) chip.regs % 10))
          (chip.regs.I + 1) (get_value_in_Vreg ((w >>> 8) &&& 0xF) chip.regs / 10 % 10))
        chip.regs.I (get_value_in_Vreg ((w >>> 8) &&& 0xF) chip.regs / 10 / 10 % 10) := by
  simp only [perform_instruction, h12, hff]
  norm_num
  rfl

theorem perform_F_default (w rnd : Nat) (chip : Chip8) (h12 : w >>> 12 = 0xF)
    (n07 : w &&& 0xFF ≠ 0x07) (n0A : w &&& 0xFF ≠ 0x0A) (n15 : w &&& 0xFF ≠ 0x15)
    (n18 : w &&& 0xFF ≠ 0x18) (n1E : w &&& 0xFF ≠ 0x1E) (n29 : w &&& 0xFF ≠ 0x29)
    (n33 : w &&& 0xFF ≠ 0x33) (n55 : w &&& 0xFF ≠ 0x55) (n65 : w &&& 0xFF ≠ 0x65) :
    perform_instruction w rnd chip = chip := by
  simp only [perform_instruction, h12, n07, n0A, n15, n18, n1E, n29, n33, n55, n65]
  norm_num

theorem perform_unknown (w rnd : Nat) (chip : Chip8)
    (n0 : w >>> 12 ≠ 0x0) (n1 : w >>> 12 ≠ 0x1) (n2 : w >>> 12 ≠ 0x2) (n3 : w >>> 12 ≠ 0x3)
    (n4 : w >>> 12 ≠ 0x4) (n5 : w >>> 12 ≠ 0x5) (n6 : w >>> 12 ≠ 0x6) (n7 : w >>> 12 ≠ 0x7)
    (n8 : w >>> 12 ≠ 0x8) (n9 : w >>> 12 ≠ 0x9) (nA : w >>> 12 ≠ 0xA) (nB : w >>> 12 ≠ 0xB)
    (nC : w >>> 12 ≠ 0xC) (nD : w >>> 12 ≠ 0xD) (nE : w >>> 12 ≠ 0xE) (nF : w >>> 12 ≠ 0xF) :
    perform_instruction w rnd chip = chip := by
  simp only [perform_instruction, n0, n1, n2, n3, n4, n5, n6, n7, n8, n9, nA, nB, nC, nD,
    nE, nF]
  norm_num

/-! ## Lemmas about the load_rom copy loop -/

theorem copy_rom_frame (rom : List Nat) : ∀ (i : Nat) (c : Chip8) (a : Nat),
    (∀ j, j < rom.length → a ≠ ROM_START + i + j) → (copy_rom rom i c).ram a = c.ram a := by
  induction rom with
  | nil => intro i c a _; rfl
  | cons b rest ih =>
    intro i c a h
    show (copy_rom rest (i + 1) (write_ram c (ROM_START + i) b)).ram a = c.ram a
    rw [ih (i + 1) _ a ?later]
    · exact Function.update_noteq (by simpa using h 0 (by simp)) _ _
    · intro j hj
      have := h (j + 1) (by simpa using Nat.succ_lt_succ hj)
      omega

theorem copy_rom_ram (rom : List Nat) : ∀ (i : Nat) (c : Chip8) (j : Nat) (h : j < rom.length),
    (copy_rom rom i c).ram (ROM_START + i + j) = rom.get ⟨j, h⟩ % 256 := by
  induction rom with
  | nil => intro i c j h; exact absurd h (by simp)
  | cons b rest ih =>
    intro i c j h
    show (copy_rom rest (i + 1) (write_ram c (ROM_START + i) b)).ram (ROM_START + i + j) = _
    match j with
    | 0 =>
      rw [copy_rom_frame rest (i + 1) _ _ (by intro j hj; omega)]
      show (Function.update c.ram (ROM_START + i) (b % 256)) (ROM_START + i + 0) = _
      simp
    | k + 1 =>
      have hk : k < rest.length := by simpa using h
      have := ih (i + 1) (write_ram c (ROM_START + i) b) k hk
      rw [show ROM_START + i + (k + 1) = ROM_START + (i + 1) + k by omega, this]
      rfl

/-! ## Claim theorems: C1, C5, C10 -/

/-- Claim C1 (code bug in src/unnamed/part_000): for the 8xy4 add with the
destination aliasing the flag register (instruction 0x8F04, so x = 0xF), the
pre-mutation operands V15 = 200 and V0 = 100 yield carry 1, but
perform_instruction leaves V15 = 44 — the wrapped sum written by the later
destination store — rather than the carry the claim requires. -/
theorem add_carry_alias_clobbered :
    c1chip.regs.v 15 = 200 ∧ c1chip.regs.v 0 = 100 ∧
    (if 255 < c1chip.regs.v 15 + c1chip.regs.v 0 then 1 else 0) = 1 ∧
    (perform_instruction 0x8F04 0 c1chip).regs.v 15 = 44 := by
  refine ⟨rfl, rfl, by decide, by decide⟩

/-- Claim C5 (code bug in src/unnamed/part_000): load_rom has no size check;
for a 3585-byte blob (one byte beyond the 3584-byte budget) the copy loop
writes the final byte at address ROM_START + 3584 = 4096, one past the last
valid RAM address, instead of rejecting the blob. -/
theorem load_rom_overrun :
    3584 < (List.replicate 3585 (7 : Nat)).length ∧
    RAM_SIZE ≤ ROM_START + 3584 ∧
    zeroChip.ram (ROM_START + 3584) = 0 ∧
    (load_rom (List.replicate 3585 (7 : Nat)) zeroChip).ram (ROM_START + 3584) = 7 := by
  refine ⟨by rw [List.length_replicate]; omega, by norm_num [RAM_SIZE, ROM_START], rfl, ?_⟩
  simp only [load_rom]
  have h := copy_rom_ram (List.replicate 3585 (7 : Nat)) 0 zeroChip 3584
    (by rw [List.length_replicate]; omega)
  rw [List.get_replicate] at h
  have e : ROM_START + 0 + 3584 = ROM_START + 3584 := by omega
  rw [e] at h
  rw [h]

/-- Claim C10: the 00EE return decrements the unsigned stack pointer with no
empty-stack guard: at SP = 0 the pointer wraps to 255 and the return address
is read from stack slot 255, outside the 16-entry stack; for any SP in the
documented range [1, 16) the decrement lands on SP - 1 and the stack read is
in bounds. -/
theorem ret_unguarded_sp_wrap :
    (∀ chip : Chip8, chip.regs.sp = 0 →
       (perform_instruction 0x00EE 0 chip).regs.sp = 255 ∧
       (perform_instruction 0x00EE 0 chip).regs.pc = chip.stack 255 % 65536 ∧
       16 ≤ (perform_instruction 0x00EE 0 chip).regs.sp) ∧
    (∀ chip : Chip8, 1 ≤ chip.regs.sp → chip.regs.sp < 16 →
       (perform_instruction 0x00EE 0 chip).regs.sp = chip.regs.sp - 1 ∧
       (perform_instruction 0x00EE 0 chip).regs.pc = chip.stack (chip.regs.sp - 1) % 65536 ∧
       (perform_instruction 0x00EE 0 chip).regs.sp < 16) := by
  constructor
  · intro chip h
    rw [perform_ret]
    norm_num [h]
  · intro chip h1 h2
    have hmod : (chip.regs.sp + 255) % 256 = chip.regs.sp - 1 := by omega
    rw [perform_ret, hmod]
    norm_num
    omega

/-- Witness for claim C10: both parts applied at concrete machines. -/
theorem ret_unguarded_sp_wrap_witness :
    (perform_instruction 0x00EE 0 zeroChip).regs.sp = 255 ∧
    (perform_instruction 0x00EE 0 sp5chip).regs.sp = sp5chip.regs.sp - 1 := by
  exact ⟨(ret_unguarded_sp_wrap.1 zeroChip rfl).1,
         (ret_unguarded_sp_wrap.2 sp5chip (by decide) (by decide)).1⟩

/-! ## Claim C3: call then return -/

/-- Claim C3: from any machine with SP < 15 and PC + 2 within the 16-bit
range, fetching and executing a 2nnn call and then fetching and executing the
00EE return leaves PC at the address immediately after the call instruction
and SP at its pre-call value. -/
theorem call_ret_roundtrip (chip : Chip8) (rnd1 rnd2 : Nat)
    (hsp : chip.regs.sp < 15)
    (hpc : chip.regs.pc + 2 < 65536)
    (hcall : (fetch_instruction chip).1 >>> 12 = 0x2)
    (hret : (fetch_instruction (step rnd1 chip)).1 = 0x00EE) :
    (step rnd2 (step rnd1 chip)).regs.pc = chip.regs.pc + 2 ∧
    (step rnd2 (step rnd1 chip)).regs.sp = chip.regs.sp := by
  have hpc2 : (chip.regs.pc + 2) % 65536 = chip.regs.pc + 2 := Nat.mod_eq_of_lt hpc
  have h1 : step rnd1 chip =
      { chip with
          stack := Function.update chip.stack chip.regs.sp (chip.regs.pc + 2),
          regs := { chip.regs with sp := chip.regs.sp + 1, pc := (fetch_instruction chip).1 &&& 0xFFF } } := by
    show perform_instruction (fetch_instruction chip).1 rnd1 (fetch_instruction chip).2 = _
    rw [perform_call _ _ _ hcall]
    have : ¬ 15 ≤ ((fetch_instruction chip).2).regs.sp := by
      simp only [fetch_instruction]
      omega
    rw [if_neg this]
    simp only [fetch_instruction]
    have e1 : (chip.regs.pc + 2) % 65536 % 65536 = chip.regs.pc + 2 := by omega
    have e2 : (chip.regs.sp + 1) % 256 = chip.regs.sp + 1 := by omega
    rw [e1, e2]
  rw [h1] at hret ⊢
  have hs : ∀ (c : Chip8), step rnd2 c =
      perform_instruction (fetch_instruction c).1 rnd2 (fetch_instruction c).2 := fun _ => rfl
  rw [hs, hret, perform_ret]
  simp only [fetch_instruction]
  have e3 : (chip.regs.sp + 1 + 255) % 256 = chip.regs.sp := by omega
  constructor
  · dsimp only
    rw [e3, Function.update_same]
    omega
  · dsimp only
    rw [e3]

/-- Witness for claim C3: the round trip evaluated on a concrete machine with
the call 0x2300 at 0x200 and the return at 0x300. -/
theorem call_ret_roundtrip_witness :
    (step 0 (step 0 c3chip)).regs.pc = c3chip.regs.pc + 2 ∧
    (step 0 (step 0 c3chip)).regs.sp = c3chip.regs.sp :=
  call_ret_roundtrip c3chip 0 0 (by decide) (by decide) (by decide) (by decide)

/-! ## Claim C4: stack overflow on call -/

theorem fold_calls_sp (ws : List Nat) : ∀ (c : Chip8) (rnd : Nat),
    (∀ w ∈ ws, w >>> 12 = 0x2) → c.regs.sp + ws.length ≤ 15 →
    (ws.foldl (fun a w => perform_instruction w rnd a) c).regs.sp = c.regs.sp + ws.length := by
  induction ws with
  | nil => intro c rnd _ _; simp
  | cons w ws ih =>
    intro c rnd hall hle
    have hw : w >>> 12 = 0x2 := hall w (by simp)
    rw [List.length_cons] at hle
    have hsp : ¬ 15 ≤ c.regs.sp := by omega
    rw [List.foldl_cons, perform_call _ _ _ hw, if_neg hsp]
    have e : (c.regs.sp + 1) % 256 = c.regs.sp + 1 := by omega
    rw [ih _ rnd (fun x hx => hall x (by simp [hx])) (by dsimp only; omega)]
    dsimp only
    rw [e, List.length_cons]
    omega

/-- Claim C4: a 2nnn call at SP = 15 reports stack overflow and changes
nothing; a call at SP < 15 pushes the (post-fetch) PC at stack[SP],
increments SP and jumps to nnn; and after 15 calls from SP = 0 without a
return, a 16th call attempt reports the overflow and leaves the machine
unchanged. -/
theorem call_overflow_noop :
    (∀ (chip : Chip8) (w rnd : Nat), w >>> 12 = 0x2 → chip.regs.sp = 15 →
       perform_instruction w rnd chip = chip ∧ reports_stack_overflow w chip = true) ∧
    (∀ (chip : Chip8) (w rnd : Nat), w >>> 12 = 0x2 → chip.regs.sp < 15 →
       chip.regs.pc < 65536 →
       perform_instruction w rnd chip =
         { chip with
             stack := Function.update chip.stack chip.regs.sp chip.regs.pc,
             regs := { chip.regs with sp := chip.regs.sp + 1, pc := w &&& 0xFFF } }) ∧
    (∀ (ws : List Nat) (chip : Chip8) (rnd w16 : Nat),
       ws.length = 15 → (∀ w ∈ ws, w >>> 12 = 0x2) → chip.regs.sp = 0 → w16 >>> 12 = 0x2 →
       reports_stack_overflow w16 (ws.foldl (fun a w => perform_instruction w rnd a) chip) = true ∧
       perform_instruction w16 rnd (ws.foldl (fun a w => perform_instruction w rnd a) chip) =
         ws.foldl (fun a w => perform_instruction w rnd a) chip) := by
  have part1 : ∀ (chip : Chip8) (w rnd : Nat), w >>> 12 = 0x2 → 15 ≤ chip.regs.sp →
      perform_instruction w rnd chip = chip ∧ reports_stack_overflow w chip = true := by
    intro chip w rnd hw hsp
    constructor
    · rw [perform_call _ _ _ hw, if_pos hsp]
    · simp [reports_stack_overflow, hw, hsp]
  refine ⟨fun chip w rnd hw hsp => part1 chip w rnd hw (by omega), ?_, ?_⟩
  · intro chip w rnd hw hsp hpc
    rw [perform_call _ _ _ hw, if_neg (by omega)]
    have e1 : (chip.regs.sp + 1) % 256 = chip.regs.sp + 1 := by omega
    have e2 : chip.regs.pc % 65536 = chip.regs.pc := Nat.mod_eq_of_lt hpc
    rw [e1, e2]
  · intro ws chip rnd w16 hlen hall hsp hw16
    have hfold := fold_calls_sp ws chip rnd hall (by omega)
    have h15 : 15 ≤ (ws.foldl (fun a w => perform_instruction w rnd a) chip).regs.sp := by
      rw [hfold]
      omega
    exact ⟨(part1 _ w16 rnd hw16 h15).2, (part1 _ w16 rnd hw16 h15).1⟩

/-- Witness for claim C4: the overflow no-op at a machine with SP = 15, and
the 16th of a run of concrete call words from SP = 0. -/
theorem call_overflow_noop_witness :
    (perform_instruction 0x2345 0 sp15chip = sp15chip ∧
     reports_stack_overflow 0x2345 sp15chip = true) ∧
    (reports_stack_overflow 0x2300
        ((List.replicate 15 0x2222).foldl (fun a w => perform_instruction w 0 a) zeroChip) = true ∧
     perform_instruction 0x2300 0
        ((List.replicate 15 0x2222).foldl (fun a w => perform_instruction w 0 a) zeroChip) =
       (List.replicate 15 0x2222).foldl (fun a w => perform_instruction w 0 a) zeroChip) :=
  ⟨call_overflow_noop.1 sp15chip 0x2345 0 (by decide) (by decide),
   call_overflow_noop.2.2 (List.replicate 15 0x2222) zeroChip 0 0x2300
     (by decide) (by decide) (by decide) (by decide)⟩

/-! ## Claim C7: Fx55 / Fx65 round trip -/

theorem fx55_go_regs_aux : ∀ (fuel xr i : Nat) (chip : Chip8), xr + 1 - i ≤ fuel →
    (fx55_go xr i chip).regs = chip.regs := by
  intro fuel
  induction fuel with
  | zero =>
    intro xr i chip h
    rw [fx55_go, if_neg (by omega)]
  | succ f ih =>
    intro xr i chip h
    rw [fx55_go]
    by_cases hc : i ≤ xr
    · rw [if_pos hc, ih xr (i + 1) _ (by omega)]
      rfl
    · rw [if_neg hc]

theorem fx55_go_regs (xr i : Nat) (chip : Chip8) : (fx55_go xr i chip).regs = chip.regs :=
  fx55_go_regs_aux (xr + 1 - i) xr i chip le_rfl

theorem fx55_go_ram_frame_aux : ∀ (fuel xr i : Nat) (chip : Chip8) (a : Nat),
    xr + 1 - i ≤ fuel →
    (∀ j, i ≤ j → j ≤ xr → a ≠ chip.regs.I + j) →
    (fx55_go xr i chip).ram a = chip.ram a := by
  intro fuel
  induction fuel with
  | zero =>
    intro xr i chip a h _
    rw [fx55_go, if_neg (by omega)]
  | succ f ih =>
    intro xr i chip a h hout
    rw [fx55_go]
    by_cases hc : i ≤ xr
    · rw [if_pos hc,
        ih xr (i + 1) (write_ram chip (chip.regs.I + i) (get_value_in_Vreg i chip.regs)) a
          (by omega) (fun j hj1 hj2 => hout j (by omega) hj2)]
      exact Function.update_noteq (hout i le_rfl hc) _ _
    · rw [if_neg hc]

theorem fx55_go_ram_frame (xr i : Nat) (chip : Chip8) (a : Nat)
    (hout : ∀ j, i ≤ j → j ≤ xr → a ≠ chip.regs.I + j) :
    (fx55_go xr i chip).ram a = chip.ram a :=
  fx55_go_ram_frame_aux (xr + 1 - i) xr i chip a le_rfl hout

theorem fx55_go_ram_in_aux : ∀ (fuel xr i : Nat) (chip : Chip8) (j : Nat),
    xr + 1 - i ≤ fuel → i ≤ j → j ≤ xr →
    (fx55_go xr i chip).ram (chip.regs.I + j) = get_value_in_Vreg j chip.regs % 256 := by
  intro fuel
  induction fuel with
  | zero =>
    intro xr i chip j h hij hjx
    omega
  | succ f ih =>
    intro xr i chip j h hij hjx
    rw [fx55_go, if_pos (le_trans hij hjx)]
    by_cases hji : j = i
    · subst hji
      rw [fx55_go_ram_frame xr (j + 1) _ _ (fun k hk1 hk2 => by
        show chip.regs.I + j ≠ (write_ram chip (chip.regs.I + j) _).regs.I + k
        rw [write_ram_regs]
        omega)]
      show Function.update chip.ram (chip.regs.I + j) _ (chip.regs.I + j) = _
      rw [Function.update_same]
    · have := ih xr (i + 1) (write_ram chip (chip.regs.I + i) (get_value_in_Vreg i chip.regs)) j
        (by omega) (by omega) hjx
      rw [write_ram_regs] at this
      exact this

theorem fx55_go_ram_in (xr i : Nat) (chip : Chip8) (j : Nat) (hij : i ≤ j) (hjx : j ≤ xr) :
    (fx55_go xr i chip).ram (chip.regs.I + j) = get_value_in_Vreg j chip.regs % 256 :=
  fx55_go_ram_in_aux (xr + 1 - i) xr i chip j le_rfl hij hjx

theorem fx65_go_ram_aux : ∀ (fuel xr i : Nat) (chip : Chip8), xr + 1 - i ≤ fuel →
    (fx65_go xr i chip).ram = chip.ram := by
  intro fuel
  induction fuel with
  | zero =>
    intro xr i chip h
    rw [fx65_go, if_neg (by omega)]
  | succ f ih =>
    intro xr i chip h
    rw [fx65_go]
    by_cases hc : i ≤ xr
    · rw [if_pos hc, ih xr (i + 1) _ (by omega)]
    · rw [if_neg hc]

theorem fx65_go_ram (xr i : Nat) (chip : Chip8) : (fx65_go xr i chip).ram = chip.ram :=
  fx65_go_ram_aux (xr + 1 - i) xr i chip le_rfl

theorem fx65_go_pc_aux : ∀ (fuel xr i : Nat) (chip : Chip8), xr + 1 - i ≤ fuel →
    (fx65_go xr i chip).regs.pc = chip.regs.pc := by
  intro fuel
  induction fuel with
  | zero =>
    intro xr i chip h
    rw [fx65_go, if_neg (by omega)]
  | succ f ih =>
    intro xr i chip h
    rw [fx65_go]
    by_cases hc : i ≤ xr
    · rw [if_pos hc, ih xr (i + 1) _ (by omega)]
      exact put_value_pc _ _ _
    · rw [if_neg hc]

theorem fx65_go_pc (xr i : Nat) (chip : Chip8) : (fx65_go xr i chip).regs.pc = chip.regs.pc :=
  fx65_go_pc_aux (xr + 1 - i) xr i chip le_rfl

theorem fx65_go_v_lt_aux : ∀ (fuel xr i : Nat) (chip : Chip8) (j : Nat),
    xr + 1 - i ≤ fuel → j < i →
    (fx65_go xr i chip).regs.v j = chip.regs.v j := by
  intro fuel
  induction fuel with
  | zero =>
    intro xr i chip j h hj
    rw [fx65_go, if_neg (by omega)]
  | succ f ih =>
    intro xr i chip j h hj
    rw [fx65_go]
    by_cases hc : i ≤ xr
    · rw [if_pos hc, ih xr (i + 1) _ j (by omega) (by omega)]
      exact put_value_v_ne i j _ _ (by omega)
    · rw [if_neg hc]

theorem fx65_go_v_lt (xr i : Nat) (chip : Chip8) (j : Nat) (hj : j < i) :
    (fx65_go xr i chip).regs.v j = chip.regs.v j :=
  fx65_go_v_lt_aux (xr + 1 - i) xr i chip j le_rfl hj

theorem fx65_go_v_in_aux : ∀ (fuel xr i : Nat) (chip : Chip8) (j : Nat),
    xr + 1 - i ≤ fuel → i ≤ j → j ≤ xr → xr ≤ 15 →
    (fx65_go xr i chip).regs.v j = chip.ram (chip.regs.I + j) % 256 := by
  intro fuel
  induction fuel with
  | zero =>
    intro xr i chip j h hij hjx _
    omega
  | succ f ih =>
    intro xr i chip j h hij hjx hx15
    rw [fx65_go, if_pos (le_trans hij hjx)]
    by_cases hji : j = i
    · subst hji
      rw [fx65_go_v_lt xr (j + 1) _ j (by omega)]
      show (put_value_in_Vreg j (chip.ram (chip.regs.I + j)) chip.regs).v j = _
      rw [put_value_v_self j _ _ (by omega)]
    · have := ih xr (i + 1)
        { chip with regs := put_value_in_Vreg i (chip.ram (chip.regs.I + i)) chip.regs } j
        (by omega) (by omega) hjx hx15
      rw [show ({ chip with regs := put_value_in_Vreg i (chip.ram (chip.regs.I + i)) chip.regs } : Chip8).regs.I
          = chip.regs.I from put_value_I _ _ _] at this
      exact this

theorem fx65_go_v_in (xr i : Nat) (chip : Chip8) (j : Nat)
    (hij : i ≤ j) (hjx : j ≤ xr) (hx15 : xr ≤ 15) :
    (fx65_go xr i chip).regs.v j = chip.ram (chip.regs.I + j) % 256 :=
  fx65_go_v_in_aux (xr + 1 - i) xr i chip j le_rfl hij hjx hx15

/-- Claim C7: storing V0 .. Vx to memory with Fx55, zeroing V0 .. Vx, then
loading with Fx65 at the same x and the unchanged index register restores
every register V0 .. Vx to its original value (the index register is not
modified by either loop, and I + x stays inside the 4096-byte memory). -/
theorem store_load_roundtrip (chip : Chip8) (w55 w65 rnd1 rnd2 i : Nat)
    (h55a : w55 >>> 12 = 0xF) (h55b : w55 &&& 0xFF = 0x55)
    (h65a : w65 >>> 12 = 0xF) (h65b : w65 &&& 0xFF = 0x65)
    (hx : (w65 >>> 8) &&& 0xF = (w55 >>> 8) &&& 0xF)
    (hwf : ∀ j, chip.regs.v j < 256)
    (hbound : chip.regs.I + ((w55 >>> 8) &&& 0xF) < 4096)
    (hi : i ≤ (w55 >>> 8) &&& 0xF) :
    (perform_instruction w65 rnd2
        (zeroRegs ((w55 >>> 8) &&& 0xF) (perform_instruction w55 rnd1 chip))).regs.v i
      = chip.regs.v i := by
  have hx15 : (w55 >>> 8) &&& 0xF ≤ 15 := Nat.and_le_right
  rw [perform_F55 _ _ _ h55a h55b, perform_F65 _ _ _ h65a h65b, hx]
  rw [fx65_go_v_in _ 0 _ i (Nat.zero_le i) hi hx15]
  have hram : (zeroRegs ((w55 >>> 8) &&& 0xF) (fx55_go ((w55 >>> 8) &&& 0xF) 0 chip)).ram
      = (fx55_go ((w55 >>> 8) &&& 0xF) 0 chip).ram := rfl
  have hI : (zeroRegs ((w55 >>> 8) &&& 0xF) (fx55_go ((w55 >>> 8) &&& 0xF) 0 chip)).regs.I
      = chip.regs.I := by
    show (fx55_go ((w55 >>> 8) &&& 0xF) 0 chip).regs.I = chip.regs.I
    rw [fx55_go_regs]
  rw [hram, hI, fx55_go_ram_in _ 0 chip i (Nat.zero_le i) hi]
  rw [get_value_le i chip.regs (le_trans hi hx15)]
  have := hwf i
  omega

/-- Witness for claim C7: the round trip evaluated at x = 4, I = 1000,
register index 2 on a machine with distinct register values. -/
theorem store_load_roundtrip_witness :
    (perform_instruction 0xF465 0
        (zeroRegs ((0xF455 >>> 8) &&& 0xF) (perform_instruction 0xF455 0 c7chip))).regs.v 2
      = c7chip.regs.v 2 :=
  store_load_roundtrip c7chip 0xF455 0xF465 0 0 2 (by decide) (by decide) (by decide)
    (by decide) (by decide) (fun j => Nat.mod_lt _ (by norm_num)) (by decide) (by decide)

/-! ## Claim C6: Fx0A wait-for-key scan -/

theorem perform_F0A (w rnd : Nat) (chip : Chip8) (h12 : w >>> 12 = 0xF) (hff : w &&& 0xFF = 0x0A) :
    perform_instruction w rnd chip =
      (if chip.key 1 then { chip with regs := put_value_in_Vreg ((w >>> 8) &&& 0xF) 1 chip.regs }
       else if chip.key 2 then { chip with regs := put_value_in_Vreg ((w >>> 8) &&& 0xF) 2 chip.regs }
       else if chip.key 3 then { chip with regs := put_value_in_Vreg ((w >>> 8) &&& 0xF) 3 chip.regs }
       else if chip.key 4 then { chip with regs := put_value_in_Vreg ((w >>> 8) &&& 0xF) 4 chip.regs }
       else if chip.key 5 then { chip with regs := put_value_in_Vreg ((w >>> 8) &&& 0xF) 5 chip.regs }
       else if chip.key 6 then { chip with regs := put_value_in_Vreg ((w >>> 8) &&& 0xF) 6 chip.regs }
       else if chip.key 7 then { chip with regs := put_value_in_Vreg ((w >>> 8) &&& 0xF) 7 chip.regs }
       else if chip.key 8 then { chip with regs := put_value_in_Vreg ((w >>> 8) &&& 0xF) 8 chip.regs }
       else if chip.key 9 then { chip with regs := put_value_in_Vreg ((w >>> 8) &&& 0xF) 9 chip.regs }
       else if chip.key 10 then { chip with regs := put_value_in_Vreg ((w >>> 8) &&& 0xF) 10 chip.regs }
       else if chip.key 0 then { chip with regs := put_value_in_Vreg ((w >>> 8) &&& 0xF) 0 chip.regs }
       else if chip.key 11 then { chip with regs := put_value_in_Vreg ((w >>> 8) &&& 0xF) 11 chip.regs }
       else if chip.key 12 then { chip with regs := put_value_in_Vreg ((w >>> 8) &&& 0xF) 12 chip.regs }
       else if chip.key 13 then { chip with regs := put_value_in_Vreg ((w >>> 8) &&& 0xF) 13 chip.regs }
       else if chip.key 14 then { chip with regs := put_value_in_Vreg ((w >>> 8) &&& 0xF) 14 chip.regs }
       else if chip.key 15 then { chip with regs := put_value_in_Vreg ((w >>> 8) &&& 0xF) 15 chip.regs }
       else { chip with regs := { chip.regs with pc := (chip.regs.pc + 65534) % 65536 } }) := by
  simp only [perform_instruction, h12, hff]
  norm_num

/-- Claim C6: Fx0A scans the 16 logical keys in the fixed priority order
1,2,3,4,5,6,7,8,9,A,0,B,C,D,E,F and stores the hex value of the first pressed
key into Vx; with no key pressed it subtracts 2 from PC (mod 2^16) so the
same instruction is retried, leaving everything else unchanged. -/
theorem fx0a_scan (chip : Chip8) (w rnd : Nat)
    (h12 : w >>> 12 = 0xF) (hff : w &&& 0xFF = 0x0A) :
    (perform_instruction w rnd chip =
      match keyPriority.find? (fun j => chip.key j) with
      | some k => { chip with regs := put_value_in_Vreg ((w >>> 8) &&& 0xF) k chip.regs }
      | none => { chip with regs := { chip.regs with pc := (chip.regs.pc + 65534) % 65536 } }) ∧
    (keyPriority.find? (fun j => chip.key j) = none → 2 ≤ chip.regs.pc →
      chip.regs.pc < 65536 →
      (perform_instruction w rnd chip).regs.pc = chip.regs.pc - 2) := by
  have hmain : perform_instruction w rnd chip =
      match keyPriority.find? (fun j => chip.key j) with
      | some k => { chip with regs := put_value_in_Vreg ((w >>> 8) &&& 0xF) k chip.regs }
      | none => { chip with regs := { chip.regs with pc := (chip.regs.pc + 65534) % 65536 } } := by
    rw [perform_F0A _ _ _ h12 hff]
    by_cases h1 : chip.key 1
    · simp [keyPriority, List.find?, h1]
    by_cases h2 : chip.key 2
    · simp [keyPriority, List.find?, h1, h2]
    by_cases h3 : chip.key 3
    · simp [keyPriority, List.find?, h1, h2, h3]
    by_cases h4 : chip.key 4
    · simp [keyPriority, List.find?, h1, h2, h3, h4]
    by_cases h5 : chip.key 5
    · simp [keyPriority, List.find?, h1, h2, h3, h4, h5]
    by_cases h6 : chip.key 6
    · simp [keyPriority, List.find?, h1, h2, h3, h4, h5, h6]
    by_cases h7 : chip.key 7
    · simp [keyPriority, List.find?, h1, h2, h3, h4, h5, h6, h7]
    by_cases h8 : chip.key 8
    · simp [keyPriority, List.find?, h1, h2, h3, h4, h5, h6, h7, h8]
    by_cases h9 : chip.key 9
    · simp [keyPriority, List.find?, h1, h2, h3, h4, h5, h6, h7, h8, h9]
    by_cases h10 : chip.key 10
    · simp [keyPriority, List.find?, h1, h2, h3, h4, h5, h6, h7, h8, h9, h10]
    by_cases h0 : chip.key 0
    · simp [keyPriority, List.find?, h1, h2, h3, h4, h5, h6, h7, h8, h9, h10, h0]
    by_cases h11 : chip.key 11
    · simp [keyPriority, List.find?, h1, h2, h3, h4, h5, h6, h7, h8, h9, h10, h0, h11]
    by_cases h12k : chip.key 12
    · simp [keyPriority, List.find?, h1, h2, h3, h4, h5, h6, h7, h8, h9, h10, h0, h11, h12k]
    by_cases h13 : chip.key 13
    · simp [keyPriority, List.find?, h1, h2, h3, h4, h5, h6, h7, h8, h9, h10, h0, h11, h12k, h13]
    by_cases h14 : chip.key 14
    · simp [keyPriority, List.find?, h1, h2, h3, h4, h5, h6, h7, h8, h9, h10, h0, h11, h12k, h13, h14]
    by_cases h15 : chip.key 15
    · simp [keyPriority, List.find?, h1, h2, h3, h4, h5, h6, h7, h8, h9, h10, h0, h11, h12k,
        h13, h14, h15]
    simp [keyPriority, List.find?, h1, h2, h3, h4, h5, h6, h7, h8, h9, h10, h0, h11, h12k,
      h13, h14, h15]
  refine ⟨hmain, ?_⟩
  intro hnone hpc2 hpc
  rw [hmain, hnone]
  show (chip.regs.pc + 65534) % 65536 = chip.regs.pc - 2
  omega

/-- Witness for claim C6: with only logical key 7 pressed, F30A stores 7 into
V3; with no key pressed, PC falls back by 2. -/
theorem fx0a_scan_witness :
    (perform_instruction 0xF30A 0 key7chip =
      match keyPriority.find? (fun j => key7chip.key j) with
      | some k => { key7chip with regs := put_value_in_Vreg ((0xF30A >>> 8) &&& 0xF) k key7chip.regs }
      | none => { key7chip with regs := { key7chip.regs with pc := (key7chip.regs.pc + 65534) % 65536 } }) ∧
    (perform_instruction 0xF30A 0 zeroChip =
      match keyPriority.find? (fun j => zeroChip.key j) with
      | some k => { zeroChip with regs := put_value_in_Vreg ((0xF30A >>> 8) &&& 0xF) k zeroChip.regs }
      | none => { zeroChip with regs := { zeroChip.regs with pc := (zeroChip.regs.pc + 65534) % 65536 } }) :=
  ⟨(fx0a_scan key7chip 0xF30A 0 (by decide) (by decide)).1,
   (fx0a_scan zeroChip 0xF30A 0 (by decide) (by decide)).1⟩

/-! ## Claim C8: the two source variants of the 8xy_ family -/

theorem put_put_comm (i j vi vj : Nat) (r : Registers) (hij : i ≠ j) :
    put_value_in_Vreg i vi (put_value_in_Vreg j vj r) =
      put_value_in_Vreg j vj (put_value_in_Vreg i vi r) := by
  unfold put_value_in_Vreg
  by_cases hi : 15 < i <;> by_cases hj : 15 < j <;> simp [hi, hj]
  rw [Function.update_comm hij]

/-- Claim C8: the part_000 and chip8.cpp variants of the 8xy4/5/6/7/E opcodes
disagree exactly on the aliasing case: there is a register file and an
instruction of that family with x = 0xF on which the two produce different
final register files (0x8F04 with VF = 200, V0 = 100: part_000 leaves
VF = 44, chip8.cpp leaves VF = 1), while for every x other than 0xF the two
produce the same final register file. -/
theorem variants_alias_disagree :
    (∃ (r : Registers) (w : Nat),
       w >>> 12 = 0x8 ∧
       (w &&& 0xF = 0x4 ∨ w &&& 0xF = 0x5 ∨ w &&& 0xF = 0x6 ∨ w &&& 0xF = 0x7 ∨
         w &&& 0xF = 0xE) ∧
       (w >>> 8) &&& 0xF = 0xF ∧
       exec8 w r ≠ exec8_chip8cpp w r) ∧
    (∀ (r : Registers) (w : Nat),
       w >>> 12 = 0x8 →
       (w &&& 0xF = 0x4 ∨ w &&& 0xF = 0x5 ∨ w &&& 0xF = 0x6 ∨ w &&& 0xF = 0x7 ∨
         w &&& 0xF = 0xE) →
       (w >>> 8) &&& 0xF ≠ 0xF →
       exec8 w r = exec8_chip8cpp w r) := by
  constructor
  · refine ⟨c8regs, 0x8F04, by decide, by decide, by decide, ?_⟩
    intro h
    have h15 := congrArg (fun rr => rr.v 15) h
    simp only at h15
    exact absurd h15 (by decide)
  · intro r w h8 hfam hx
    rcases hfam with h | h | h | h | h
    all_goals simp only [exec8, exec8_chip8cpp, h]
    all_goals norm_num
    all_goals first
      | rfl
      | exact put_put_comm _ _ _ _ _ hx

/-- Witness for claim C8: the agreement part applied at the non-aliasing add
0x8234 on a register file with V2 = 9, V3 = 4. -/
theorem variants_alias_disagree_witness :
    exec8 0x8234 c8regsB = exec8_chip8cpp 0x8234 c8regsB :=
  variants_alias_disagree.2 c8regsB 0x8234 (by decide) (by decide) (by decide)

/-! ## Claim C9: parity of the program counter -/

theorem exec8_pc (w : Nat) (r : Registers) : (exec8 w r).pc = r.pc := by
  simp only [exec8]
  split_ifs <;> simp [put_value_pc]

theorem dxynLoop_pc : ∀ (n x y m : Nat) (c : Chip8), (dxynLoop x y m n c).regs.pc = c.regs.pc := by
  intro n
  induction n with
  | zero => intro x y m c; rfl
  | succ k ih =>
    intro x y m c
    rw [dxynLoop]
    split
    · cases hdr : (draw_pixel_row x y c.screen (c.ram m)).2 <;> simp [hdr, put_value_pc]
    · rw [ih]
      cases hdr : (draw_pixel_row x y c.screen (c.ram m)).2 <;> simp [hdr, put_value_pc]

theorem perform_F0A_pc (w rnd : Nat) (c : Chip8) (h12 : w >>> 12 = 0xF)
    (hff : w &&& 0xFF = 0x0A) (hpc : c.regs.pc % 2 = 0) :
    (perform_instruction w rnd c).regs.pc % 2 = 0 := by
  rw [perform_F0A _ _ _ h12 hff]
  by_cases h1 : c.key 1
  · simp [h1, put_value_pc, hpc]
  by_cases h2 : c.key 2
  · simp [h1, h2, put_value_pc, hpc]
  by_cases h3 : c.key 3
  · simp [h1, h2, h3, put_value_pc, hpc]
  by_cases h4 : c.key 4
  · simp [h1, h2, h3, h4, put_value_pc, hpc]
  by_cases h5 : c.key 5
  · simp [h1, h2, h3, h4, h5, put_value_pc, hpc]
  by_cases h6 : c.key 6
  · simp [h1, h2, h3, h4, h5, h6, put_value_pc, hpc]
  by_cases h7 : c.key 7
  · simp [h1, h2, h3, h4, h5, h6, h7, put_value_pc, hpc]
  by_cases h8 : c.key 8
  · simp [h1, h2, h3, h4, h5, h6, h7, h8, put_value_pc, hpc]
  by_cases h9 : c.key 9
  · simp [h1, h2, h3, h4, h5, h6, h7, h8, h9, put_value_pc, hpc]
  by_cases h10 : c.key 10
  · simp [h1, h2, h3, h4, h5, h6, h7, h8, h9, h10, put_value_pc, hpc]
  by_cases h0 : c.key 0
  · simp [h1, h2, h3, h4, h5, h6, h7, h8, h9, h10, h0, put_value_pc, hpc]
  by_cases h11 : c.key 11
  · simp [h1, h2, h3, h4, h5, h6, h7, h8, h9, h10, h0, h11, put_value_pc, hpc]
  by_cases h12b : c.key 12
  · simp [h1, h2, h3, h4, h5, h6, h7, h8, h9, h10, h0, h11, h12b, put_value_pc, hpc]
  by_cases h13 : c.key 13
  · simp [h1, h2, h3, h4, h5, h6, h7, h8, h9, h10, h0, h11, h12b, h13, put_value_pc, hpc]
  by_cases h14 : c.key 14
  · simp [h1, h2, h3, h4, h5, h6, h7, h8, h9, h10, h0, h11, h12b, h13, h14, put_value_pc, hpc]
  by_cases h15 : c.key 15
  · simp [h1, h2, h3, h4, h5, h6, h7, h8, h9, h10, h0, h11, h12b, h13, h14, h15,
      put_value_pc, hpc]
  · simp only [h1, h2, h3, h4, h5, h6, h7, h8, h9, h10, h0, h11, h12b, h13, h14, h15,
      if_false, Bool.false_eq_true]
    try dsimp only
    omega

set_option maxHeartbeats 3200000 in
theorem perform_pc_mod2 (w rnd : Nat) (c : Chip8)
    (hpc : c.regs.pc % 2 = 0)
    (h1 : w >>> 12 = 0x1 → (w &&& 0xFFF) % 2 = 0)
    (h2 : w >>> 12 = 0x2 → (w &&& 0xFFF) % 2 = 0)
    (hB : w >>> 12 = 0xB → ((w &&& 0xFFF) + get_value_in_Vreg 0 c.regs) % 2 = 0)
    (hEE : w = 0x00EE → c.stack ((c.regs.sp + 255) % 256) % 2 = 0) :
    (perform_instruction w rnd c).regs.pc % 2 = 0 := by
  by_cases k0 : w >>> 12 = 0x0
  · by_cases e0 : w = 0x00E0
    · subst e0
      rw [perform_clear]
      exact hpc
    by_cases eE : w = 0x00EE
    · subst eE
      rw [perform_ret]
      have := hEE rfl
      dsimp only
      omega
    · rw [perform_zero_default _ _ _ k0 e0 eE]
      exact hpc
  by_cases k1 : w >>> 12 = 0x1
  · rw [perform_jump _ _ _ k1]
    exact h1 k1
  by_cases k2 : w >>> 12 = 0x2
  · rw [perform_call _ _ _ k2]
    split_ifs
    · exact hpc
    · exact h2 k2
  by_cases k3 : w >>> 12 = 0x3
  · rw [perform_se3 _ _ _ k3]
    split_ifs
    · dsimp only
      omega
    · exact hpc
  by_cases k4 : w >>> 12 = 0x4
  · rw [perform_sne4 _ _ _ k4]
    split_ifs
    · exact hpc
    · dsimp only
      omega
  by_cases k5 : w >>> 12 = 0x5
  · rw [perform_se5 _ _ _ k5]
    split_ifs
    · dsimp only
      omega
    · exact hpc
  by_cases k6 : w >>> 12 = 0x6
  · rw [perform_ld6 _ _ _ k6]
    dsimp only
    rw [put_value_pc]
    exact hpc
  by_cases k7 : w >>> 12 = 0x7
  · rw [perform_add7 _ _ _ k7]
    dsimp only
    rw [put_value_pc]
    exact hpc
  by_cases k8 : w >>> 12 = 0x8
  · rw [perform_8 _ _ _ k8]
    dsimp only
    rw [exec8_pc]
    exact hpc
  by_cases k9 : w >>> 12 = 0x9
  · rw [perform_sne9 _ _ _ k9]
    split_ifs
    · exact hpc
    · dsimp only
      omega
  by_cases kA : w >>> 12 = 0xA
  · rw [perform_ldI _ _ _ kA]
    exact hpc
  by_cases kB : w >>> 12 = 0xB
  · rw [perform_jpV0 _ _ _ kB]
    dsimp only
    have := hB kB
    omega
  by_cases kC : w >>> 12 = 0xC
  · rw [perform_rndC _ _ _ kC]
    dsimp only
    rw [put_value_pc]
    exact hpc
  by_cases kD : w >>> 12 = 0xD
  · rw [perform_D _ _ _ kD, dxynLoop_pc]
    dsimp only
    rw [put_value_pc]
    exact hpc
  by_cases kE : w >>> 12 = 0xE
  · rw [perform_skpE _ _ _ kE]
    split_ifs <;> first | exact hpc | (dsimp only; omega)
  by_cases kF : w >>> 12 = 0xF
  · by_cases f07 : w &&& 0xFF = 0x07
    · rw [perform_F07 _ _ _ kF f07]
      dsimp only
      rw [put_value_pc]
      exact hpc
    by_cases f0A : w &&& 0xFF = 0x0A
    · exact perform_F0A_pc _ _ _ kF f0A hpc
    by_cases f15 : w &&& 0xFF = 0x15
    · rw [perform_F15 _ _ _ kF f15]
      exact hpc
    by_cases f18 : w &&& 0xFF = 0x18
    · rw [perform_F18 _ _ _ kF f18]
      exact hpc
    by_cases f1E : w &&& 0xFF = 0x1E
    · rw [perform_F1E _ _ _ kF f1E]
      exact hpc
    by_cases f29 : w &&& 0xFF = 0x29
    · rw [perform_F29 _ _ _ kF f29]
      exact hpc
    by_cases f33 : w &&& 0xFF = 0x33
    · rw [perform_F33 _ _ _ kF f33]
      exact hpc
    by_cases f55 : w &&& 0xFF = 0x55
    · rw [perform_F55 _ _ _ kF f55, fx55_go_regs]
      exact hpc
    by_cases f65 : w &&& 0xFF = 0x65
    · rw [perform_F65 _ _ _ kF f65, fx65_go_pc]
      exact hpc
    · rw [perform_F_default _ _ _ kF f07 f0A f15 f18 f1E f29 f33 f55 f65]
      exact hpc
  · rw [perform_unknown _ _ _ k0 k1 k2 k3 k4 k5 k6 k7 k8 k9 kA kB kC kD kE kF]
    exact hpc

/-- Counterexample to claim C9 as stated: from the even initial PC 0x200, the
jump 0x1201 (an odd target) makes the PC observed right after the next fetch
odd, so the post-fetch PC is not always even. -/
theorem pc_even_after_fetch_cex :
    Even c9chip.regs.pc ∧
    ¬ Even ((fetch_instruction (step 0 c9chip)).2.regs.pc) := by
  constructor
  · decide
  · decide

/-- Claim C9 (amended): a fetch–execute step preserves evenness of the PC
provided every control transfer executed in it writes an even target — the
fetch advance, the skips and the Fx0A rewind change PC by an even amount and
all other opcodes leave it unchanged; only a 1nnn/2nnn jump to an odd nnn, a
Bnnn jump to an odd nnn + V0, or a 00EE return to an odd stacked address can
break the parity, as the counterexample shows. -/
theorem pc_parity_preserved (chip : Chip8) (rnd : Nat)
    (hpc : Even chip.regs.pc)
    (h1 : (fetch_instruction chip).1 >>> 12 = 0x1 →
       Even ((fetch_instruction chip).1 &&& 0xFFF))
    (h2 : (fetch_instruction chip).1 >>> 12 = 0x2 →
       Even ((fetch_instruction chip).1 &&& 0xFFF))
    (hB : (fetch_instruction chip).1 >>> 12 = 0xB →
       Even (((fetch_instruction chip).1 &&& 0xFFF) + get_value_in_Vreg 0 chip.regs))
    (hEE : (fetch_instruction chip).1 = 0x00EE →
       Even (chip.stack ((chip.regs.sp + 255) % 256))) :
    Even ((step rnd chip).regs.pc) ∧
    Even ((fetch_instruction (step rnd chip)).2.regs.pc) := by
  simp only [Nat.even_iff] at hpc h1 h2 hB hEE ⊢
  have main : (perform_instruction (fetch_instruction chip).1 rnd
      (fetch_instruction chip).2).regs.pc % 2 = 0 := by
    apply perform_pc_mod2
    · show ((chip.regs.pc + 2) % 65536) % 2 = 0
      omega
    · exact h1
    · exact h2
    · exact hB
    · exact hEE
  constructor
  · exact main
  · show ((step rnd chip).regs.pc + 2) % 65536 % 2 = 0
    have : (step rnd chip).regs.pc % 2 = 0 := main
    omega

/-- Witness for the amended claim C9: the step executed from the all-zero
machine (whose fetched word 0x0000 is not a control transfer) keeps the PC
even after the next fetch. -/
theorem pc_parity_preserved_witness :
    Even ((step 0 zeroChip).regs.pc) ∧
    Even ((fetch_instruction (step 0 zeroChip)).2.regs.pc) :=
  pc_parity_preserved zeroChip 0 (by decide) (by decide) (by decide) (by decide) (by decide)

/-! ## Claim C2: Dxyn sprite draw -/

theorem put_put_same (i a b : Nat) (r : Registers) :
    put_value_in_Vreg i a (put_value_in_Vreg i b r) = put_value_in_Vreg i a r := by
  unfold put_value_in_Vreg
  by_cases h : 15 < i <;> simp [h, Function.update_idem]

theorem ite_or_put (p q : Bool) (r : Registers) :
    (if q = true then
       put_value_in_Vreg 15 1 (if p = true then put_value_in_Vreg 15 1 r else r)
     else (if p = true then put_value_in_Vreg 15 1 r else r)) =
    (if (p || q) = true then put_value_in_Vreg 15 1 r else r) := by
  cases p <;> cases q <;> simp [put_put_same]

theorem ite_collision_put (q : Bool) (r : Registers) :
    (if q = true then put_value_in_Vreg 15 1 (put_value_in_Vreg 15 0 r)
     else put_value_in_Vreg 15 0 r) =
    put_value_in_Vreg 15 (if q = true then 1 else 0) r := by
  cases q <;> simp [put_put_same]

theorem dxynLoop_eq : ∀ (n x y m : Nat) (c : Chip8), y < 32 →
    dxynLoop x y m n c =
      { c with
          screen := (drawRowsRef x y m c.ram (min n (32 - y)) c.screen).1,
          regs := if (drawRowsRef x y m c.ram (min n (32 - y)) c.screen).2 then
                    put_value_in_Vreg 15 1 c.regs
                  else c.regs } := by
  intro n
  induction n with
  | zero =>
    intro x y m c hy
    simp [dxynLoop, drawRowsRef]
  | succ k ih =>
    intro x y m c hy
    rw [dxynLoop]
    by_cases hy31 : 32 ≤ y + 1
    · rw [if_pos hy31]
      have hmin : min (k + 1) (32 - y) = 0 + 1 := by omega
      rw [hmin]
      simp only [drawRowsRef]
      simp
    · rw [if_neg hy31]
      rw [ih x (y + 1) (m + 1) _ (by omega)]
      have hmin : min (k + 1) (32 - y) = min k (31 - y) + 1 := by omega
      have h31 : 32 - (y + 1) = 31 - y := by omega
      rw [hmin, h31]
      simp only [drawRowsRef]
      rw [ite_or_put]

/-- Claim C2: for every Dxyn execution, the sprite origin is
(Vx mod 64, Vy mod 32) — the wrap is applied once, at the origin only; the
rows drawn are exactly rows 0 .. min n (32 - y0) - 1, each at unwrapped row
coordinate y0 + r (so drawing stops when the bottom row 32 is reached); and
the final VF — first cleared to 0 — is 1 exactly when some row of the whole
draw cleared a previously set pixel. Everything else is unchanged. -/
theorem dxyn_draw (chip : Chip8) (w rnd : Nat) (h : w >>> 12 = 0xD) :
    perform_instruction w rnd chip =
      { chip with
          screen := (drawRowsRef (get_value_in_Vreg ((w >>> 8) &&& 0xF) chip.regs % 64)
              (get_value_in_Vreg ((w >>> 4) &&& 0xF) chip.regs % 32) chip.regs.I chip.ram
              (min (w &&& 0xF) (32 - get_value_in_Vreg ((w >>> 4) &&& 0xF) chip.regs % 32))
              chip.screen).1,
          regs := put_value_in_Vreg 15
              (if (drawRowsRef (get_value_in_Vreg ((w >>> 8) &&& 0xF) chip.regs % 64)
                  (get_value_in_Vreg ((w >>> 4) &&& 0xF) chip.regs % 32) chip.regs.I chip.ram
                  (min (w &&& 0xF) (32 - get_value_in_Vreg ((w >>> 4) &&& 0xF) chip.regs % 32))
                  chip.screen).2 then 1 else 0) chip.regs } := by
  rw [perform_D _ _ _ h]
  rw [show get_value_in_Vreg ((w >>> 8) &&& 0xF) chip.regs &&& 63
      = get_value_in_Vreg ((w >>> 8) &&& 0xF) chip.regs % 64
    from Nat.and_pow_two_sub_one_eq_mod _ 6]
  rw [show get_value_in_Vreg ((w >>> 4) &&& 0xF) chip.regs &&& 31
      = get_value_in_Vreg ((w >>> 4) &&& 0xF) chip.regs % 32
    from Nat.and_pow_two_sub_one_eq_mod _ 5]
  rw [dxynLoop_eq _ _ _ _ _ (Nat.mod_lt _ (by norm_num))]
  dsimp only
  rw [ite_collision_put]

/-- Witness for claim C2: the sprite draw D001 on the all-zero machine. -/
theorem dxyn_draw_witness :
    perform_instruction 0xD001 0 zeroChip =
      { zeroChip with
          screen := (drawRowsRef (get_value_in_Vreg ((0xD001 >>> 8) &&& 0xF) zeroChip.regs % 64)
              (get_value_in_Vreg ((0xD001 >>> 4) &&& 0xF) zeroChip.regs % 32) zeroChip.regs.I
              zeroChip.ram
              (min (0xD001 &&& 0xF)
                (32 - get_value_in_Vreg ((0xD001 >>> 4) &&& 0xF) zeroChip.regs % 32))
              zeroChip.screen).1,
          regs := put_value_in_Vreg 15
              (if (drawRowsRef (get_value_in_Vreg ((0xD001 >>> 8) &&& 0xF) zeroChip.regs % 64)
                  (get_value_in_Vreg ((0xD001 >>> 4) &&& 0xF) zeroChip.regs % 32)
                  zeroChip.regs.I zeroChip.ram
                  (min (0xD001 &&& 0xF)
                    (32 - get_value_in_Vreg ((0xD001 >>> 4) &&& 0xF) zeroChip.regs % 32))
                  zeroChip.screen).2 then 1 else 0) zeroChip.regs } :=
  dxyn_draw zeroChip 0xD001 0 (by decide)
